import Mathlib

/-
  Verification development for the AggieCode Code Execution Service (CES).

  The definitions below are a shallow embedding of the Go sources of the
  sandboxed execution engine:

  * `SanitizeCode`, `matchPatterns` and the pattern lists embed the static
    screener of `packages/pkg.go`.
  * `mockExecute`, `extractPrintContent`, `buildCommand`, `clampTimeout`,
    `createAndStartContainer`, `Execute` and `newExecutorWithConfig` embed the
    container-backed executor (the draft wired into the front controller via
    `NewExecutorWithConfig`; external Docker/filesystem calls are modelled by
    an explicit `DockerBehavior` oracle, and the side effects that matter to
    the claims are recorded as an event trace).
  * `handlerTimeout`, `mapErrorTypeStatus`, `handlerStatus` embed the
    `/api/execute` front controller (`executeHandler`).

  Machine integers: Go `time.Duration` and `int64` are modelled as `Int`
  (nanoseconds for durations); none of the embedded computations can overflow
  an `int64` for the values involved.
-/

/-! ## Go string primitives used by the sources -/

/-- First index of `needle` in `hay` (Go `strings.Index`); like Go, an empty
needle is found at index 0. -/
def idxOf? (hay needle : List Char) : Option Nat :=
  match hay with
  | [] => if needle.isEmpty then some 0 else none
  | _ :: tl =>
    if needle.isPrefixOf hay then some 0
    else (idxOf? tl needle).map (· + 1)

/-- Go `strings.Contains s sub`: some occurrence of `sub` inside `s`. -/
def goContains (s sub : String) : Bool :=
  (idxOf? s.toList sub.toList).isSome

/-- Case-insensitive containment, modelling an RE2 literal alternative under
the `(?i)` flag (all screened inputs are ASCII, so per-character lowering
matches Go's `strings.ToLower`). -/
def goContainsCI (s sub : String) : Bool :=
  (idxOf? (s.toList.map Char.toLower) (sub.toList.map Char.toLower)).isSome

/-- RE2 `\s` character class: tab, newline, form feed, carriage return, space. -/
def isRE2Space (c : Char) : Bool :=
  c = '\t' || c = '\n' || c = '\x0c' || c = '\x0d' || c = ' '

/-- The white-space set trimmed by Go `strings.TrimSpace` (ASCII part; all
screened inputs are ASCII). -/
def isGoSpace (c : Char) : Bool :=
  c = ' ' || c = '\t' || c = '\n' || c = '\x0b' || c = '\x0c' || c = '\x0d'

/-- Go `strings.TrimSpace`. -/
def goTrimSpace (s : String) : String :=
  String.mk (((s.toList.dropWhile isGoSpace).reverse.dropWhile isGoSpace).reverse)

/-- Go `filepath.Base`: empty path gives ".", otherwise the last non-empty
slash-separated component ("/" for an all-slash path). -/
def goFilepathBase (s : String) : String :=
  if s = "" then "."
  else
    match ((s.splitOn "/").filter (fun p => p != "")).getLast? with
    | some p => p
    | none => "/"

/-! ## A small RE2 matcher for the structural patterns of the screener

The screener's JavaScript patterns combine literals with `\s+`, `\s*` and `.*`
(`.` never matches a newline in RE2, `\s` does match one).  `matchSeq` is an
exhaustive backtracking matcher for exactly these atoms, and `searchSeq` tries
every start position, which is RE2's unanchored match semantics. -/

inductive RAtom where
  | lit (s : List Char)
  | wsPlus
  | wsStar
  | dotStar
deriving DecidableEq

def matchSeq : List RAtom → List Char → Bool
  | [], _ => true
  | .lit l :: rest, cs =>
    l.isPrefixOf cs && matchSeq rest (cs.drop l.length)
  | .wsPlus :: rest, cs =>
    (List.range cs.length).any fun k =>
      ((cs.take (k + 1)).all isRE2Space) && matchSeq rest (cs.drop (k + 1))
  | .wsStar :: rest, cs =>
    (List.range (cs.length + 1)).any fun k =>
      ((cs.take k).all isRE2Space) && matchSeq rest (cs.drop k)
  | .dotStar :: rest, cs =>
    (List.range (cs.length + 1)).any fun k =>
      ((cs.take k).all (fun c => c != '\n')) && matchSeq rest (cs.drop k)

def searchSeq (atoms : List RAtom) : List Char → Bool
  | [] => matchSeq atoms []
  | c :: cs => matchSeq atoms (c :: cs) || searchSeq atoms cs

/-! ## The static screener (`packages/pkg.go`) -/

/-- The screener's pattern strings, exactly as written in `SanitizeCode`. -/
def systemPatterns : List String :=
  ["(?i)(subprocess|exec\\.|shell|eval|child_process)",
   "(?i)(io/ioutil|os\\.Open|os\\.Create|os\\.Remove)",
   "(?i)(net\\.Listen|net\\.Dial|http\\.|urllib|axios)"]

def pythonImportPatterns : List String :=
  ["^import\\s+(?!math|random|datetime|json|re|string|collections|itertools|functools|typing).*$",
   "^from\\s+(?!math|random|datetime|json|re|string|collections|itertools|functools|typing)\\s+import.*$"]

def pythonBasePatterns : List String :=
  ["__import__", "globals|locals|vars", "getattr|setattr|delattr",
   "pip|setuptools|pkg_resources"]

def goRestrictedPatterns : List String :=
  ["unsafe\\.", "reflect\\.", "plugin\\.", "go/ast",
   "syscall\\.", "debug\\.", "runtime\\.", "os\\.Exit", "panic\\("]

def jsConditionalPatterns : List String :=
  ["require\\(.*\\)", "import\\s+.*\\s+from", "import\\s*\x7b.*\x7d"]

def jsBasePatterns : List String :=
  ["process", "global", "Buffer", "__proto__", "prototype",
   "fs", "child_process", "eval", "Function", "process\\.env"]

/-- Go `regexp.MatchString pattern text`, interpreted for exactly the pattern
strings occurring in `SanitizeCode`.

* `(?i)(a|b|…)` over literal alternatives: case-insensitive substring search.
* Plain alternations / literals (`\.` is a literal dot, `\(` a literal paren):
  substring search.
* The two python allow-list patterns use the Perl look-ahead `(?!…)`, which
  Go's RE2 engine rejects at compile time ("invalid or unsupported Perl
  syntax"), so `MatchString` returns an error for them.
* The three structural JavaScript patterns go through the `searchSeq` matcher.
-/
def re2MatchString (pattern text : String) : Except Unit Bool :=
  match pattern with
  | "(?i)(subprocess|exec\\.|shell|eval|child_process)" =>
    .ok (["subprocess", "exec.", "shell", "eval", "child_process"].any
          (goContainsCI text))
  | "(?i)(io/ioutil|os\\.Open|os\\.Create|os\\.Remove)" =>
    .ok (["io/ioutil", "os.Open", "os.Create", "os.Remove"].any
          (goContainsCI text))
  | "(?i)(net\\.Listen|net\\.Dial|http\\.|urllib|axios)" =>
    .ok (["net.Listen", "net.Dial", "http.", "urllib", "axios"].any
          (goContainsCI text))
  | "^import\\s+(?!math|random|datetime|json|re|string|collections|itertools|functools|typing).*$" =>
    .error ()
  | "^from\\s+(?!math|random|datetime|json|re|string|collections|itertools|functools|typing)\\s+import.*$" =>
    .error ()
  | "__import__" => .ok (goContains text "__import__")
  | "globals|locals|vars" =>
    .ok (["globals", "locals", "vars"].any (goContains text))
  | "getattr|setattr|delattr" =>
    .ok (["getattr", "setattr", "delattr"].any (goContains text))
  | "pip|setuptools|pkg_resources" =>
    .ok (["pip", "setuptools", "pkg_resources"].any (goContains text))
  | "unsafe\\." => .ok (goContains text "unsafe.")
  | "reflect\\." => .ok (goContains text "reflect.")
  | "plugin\\." => .ok (goContains text "plugin.")
  | "go/ast" => .ok (goContains text "go/ast")
  | "syscall\\." => .ok (goContains text "syscall.")
  | "debug\\." => .ok (goContains text "debug.")
  | "runtime\\." => .ok (goContains text "runtime.")
  | "os\\.Exit" => .ok (goContains text "os.Exit")
  | "panic\\(" => .ok (goContains text "panic(")
  | "require\\(.*\\)" =>
    .ok (searchSeq [.lit "require(".toList, .dotStar, .lit ")".toList] text.toList)
  | "import\\s+.*\\s+from" =>
    .ok (searchSeq [.lit "import".toList, .wsPlus, .dotStar, .wsPlus,
                    .lit "from".toList] text.toList)
  | "import\\s*\x7b.*\x7d" =>
    .ok (searchSeq [.lit "import".toList, .wsStar, .lit "\x7b".toList,
                    .dotStar, .lit "\x7d".toList] text.toList)
  | "process" => .ok (goContains text "process")
  | "global" => .ok (goContains text "global")
  | "Buffer" => .ok (goContains text "Buffer")
  | "__proto__" => .ok (goContains text "__proto__")
  | "prototype" => .ok (goContains text "prototype")
  | "fs" => .ok (goContains text "fs")
  | "child_process" => .ok (goContains text "child_process")
  | "eval" => .ok (goContains text "eval")
  | "Function" => .ok (goContains text "Function")
  | "process\\.env" => .ok (goContains text "process.env")
  | _ => .ok false

/-- `matchPatterns` of `packages/pkg.go`: first regex error aborts with that
error, otherwise true as soon as one pattern matches. -/
def matchPatterns (patterns : List String) (text : String) : Except Unit Bool :=
  match patterns with
  | [] => .ok false
  | p :: rest =>
    match re2MatchString p text with
    | .error e => .error e
    | .ok true => .ok true
    | .ok false => matchPatterns rest text

/-- The error value returned by `SanitizeCode`: either a `SanitizationError`
struct or a plain `errors.New` error (unknown language). -/
inductive SanitizeErr where
  | sanitization (message details : String)
  | other (msg : String)
deriving DecidableEq

structure Sanitizer where
  maxCodeLength : Nat
deriving DecidableEq

def goSafePackages : List String :=
  ["fmt", "strings", "strconv", "math", "time", "encoding/json", "errors",
   "sort", "regexp"]

/-- The capture of Go's `regexp.MustCompile("^import\\s+\"([^\"]+)\"")
.FindStringSubmatch line`: anchored at the start of the (trimmed) line,
`import`, at least one white-space character, a quoted non-empty package path. -/
def goImportSubmatch (cs : List Char) : Option String :=
  if ("import".toList).isPrefixOf cs then
    let rest := cs.drop 6
    let ws := rest.takeWhile isRE2Space
    if ws.length ≥ 1 then
      match rest.drop ws.length with
      | '"' :: tail =>
        let body := tail.takeWhile (fun c => c != '"')
        if body.length ≥ 1 && !(tail.drop body.length).isEmpty then
          some (String.mk body)
        else none
      | _ => none
    else none
  else none

/-- The go branch of `SanitizeCode`: the first line whose trimmed form starts
with `import` and whose quoted package is not allow-listed. -/
def findUnauthorizedGoImport : List String → Option String
  | [] => none
  | l :: rest =>
    let line := goTrimSpace l
    if "import".isPrefixOf line then
      match goImportSubmatch line.toList with
      | some pkg =>
        if goSafePackages.contains pkg then findUnauthorizedGoImport rest
        else some pkg
      | none => findUnauthorizedGoImport rest
    else findUnauthorizedGoImport rest

/-- The `switch language` block of `SanitizeCode`: either an early return
(unauthorized go import / unknown language) or the `restrictedPatterns` list. -/
def restrictedPatternsFor (code language : String) : Except SanitizeErr (List String) :=
  match language with
  | "python" =>
    let base :=
      if goContains code "import" || goContains code "from" then
        pythonImportPatterns
      else []
    .ok (base ++ pythonBasePatterns)
  | "go" =>
    if goContains code "import" then
      match findUnauthorizedGoImport (code.splitOn "\n") with
      | some pkg =>
        .error (.sanitization "Prohibited go code pattern detected"
                  ("Unauthorized import: " ++ pkg))
      | none => .ok goRestrictedPatterns
    else .ok goRestrictedPatterns
  | "js" =>
    let base :=
      if goContains code "require" || goContains code "import" then
        jsConditionalPatterns
      else []
    .ok (base ++ jsBasePatterns)
  | _ => .error (.other ("unsupported language: " ++ language))

/-- `Sanitizer.SanitizeCode` of `packages/pkg.go`.  Returns `none` when the
code passes the screener.  Note that `matchPatterns` errors (`err != nil`) are
treated exactly like matches by the source (`if matched, err := …; err != nil
|| matched`). -/
def SanitizeCode (s : Sanitizer) (code language : String) : Option SanitizeErr :=
  if code.utf8ByteSize > s.maxCodeLength then
    some (.sanitization "Code length exceeds maximum limit"
            ("Max length allowed is " ++ String.mk [Char.ofNat s.maxCodeLength]))
  else
    match matchPatterns systemPatterns code with
    | .error _ =>
      some (.sanitization "Prohibited system-level access detected"
              "Code contains restricted system operations")
    | .ok true =>
      some (.sanitization "Prohibited system-level access detected"
              "Code contains restricted system operations")
    | .ok false =>
      match restrictedPatternsFor code language with
      | .error e => some e
      | .ok pats =>
        if pats.isEmpty then none
        else
          match matchPatterns pats code with
          | .error _ =>
            some (.sanitization ("Prohibited " ++ language ++ " code pattern detected")
                    "Unauthorized module or operation")
          | .ok true =>
            some (.sanitization ("Prohibited " ++ language ++ " code pattern detected")
                    "Unauthorized module or operation")
          | .ok false => none

/-! ## The container-backed executor (`executor` package, the
`NewExecutorWithConfig` draft used by the front controller) -/

/-- Resource and timing constants of the executor package.  Durations are Go
`time.Duration` values in nanoseconds. -/
def DefaultMemoryLimit : Int := 256 * 1024 * 1024

def DefaultExecutionTime : Int := 10 * 1000000000

def MaxExecutionTime : Int := 30 * 1000000000

def DefaultPidsLimit : Int := 50

def DefaultConcurrentLimit : Int := 10

def DefaultNetworkPolicy : String := "none"

/-- `int64(DefaultCPULimit * 1e9)` with `DefaultCPULimit = 1.0`. -/
def defaultNanoCPUs : Int := 1000000000

structure ExecutionRequest where
  Language : String
  Code : String
  Stdin : String
  Timeout : Int
deriving DecidableEq

structure ExecutionResult where
  Stdout : String
  Stderr : String
  Error : String
  ExecTimeMs : Int
deriving DecidableEq

def zeroResult : ExecutionResult :=
  { Stdout := "", Stderr := "", Error := "", ExecTimeMs := 0 }

/-- `SupportedLanguages` map of the executor package. -/
def supportedLanguages (language : String) : Option String :=
  match language with
  | "python" => some "python-executor"
  | "javascript" => some "js-executor"
  | "cpp" => some "cpp-executor"
  | "java" => some "java-executor"
  | "go" => some "go-executor"
  | _ => none

/-- `LanguageCompilers` map of the executor package (`go run` compiles
internally, so `go` is marked as needing compilation). -/
def languageCompilers (language : String) : Option Bool :=
  match language with
  | "cpp" => some true
  | "java" => some true
  | "go" => some true
  | _ => none

/-! ### The fallback (mock) executor -/

/-- Go `strings.Trim content "'\""`: the cut set is the apostrophe (code point
39) and the double quote. -/
def isCutsetQuote (c : Char) : Bool :=
  c.toNat == 39 || c == '"'

def trimQuotes (l : List Char) : List Char :=
  ((l.dropWhile isCutsetQuote).reverse.dropWhile isCutsetQuote).reverse

/-- `extractPrintContent` of the executor package. -/
def extractPrintContent (code language : String) : String :=
  let pair : String × String :=
    match language with
    | "python" => ("print(", ")")
    | "javascript" => ("console.log(", ")")
    | "cpp" => ("cout <<", ";")
    | "java" => ("System.out.println(", ")")
    | "go" => ("fmt.Println(", ")")
    | _ => ("", "")
  let cs := code.toList
  match idxOf? cs pair.1.toList with
  | some i =>
    let rest := cs.drop (i + pair.1.toList.length)
    match idxOf? rest pair.2.toList with
    | some j => String.mk (trimQuotes (rest.take j))
    | none => "[Content could not be extracted]"
  | none => "[Content could not be extracted]"

/-- `MockExecutor.Execute`.  The wall-clock measurement `time.Since(startTime)`
is modelled by the parameter `elapsedMs`; on the unsupported-language branch
the result is returned before the measurement, so its `ExecTimeMs` is the zero
value.  The second component is the `error` return (`fmt.Errorf` text). -/
def mockExecute (req : ExecutionRequest) (elapsedMs : Int) :
    ExecutionResult × Option String :=
  match req.Language with
  | "python" =>
    if goContains req.Code "print" then
      let stdout0 := "Python output: " ++ extractPrintContent req.Code "python"
      let stdout :=
        if goContains req.Code "input" && req.Stdin != "" then
          stdout0 ++ "\nInput was: " ++ req.Stdin
        else stdout0
      ({ Stdout := stdout, Stderr := "", Error := "", ExecTimeMs := elapsedMs }, none)
    else if goContains req.Code "error" || goContains req.Code "raise" then
      ({ Stdout := "", Stderr := "Python error: Simulated exception",
         Error := "Process exited with code 1", ExecTimeMs := elapsedMs }, none)
    else ({ zeroResult with ExecTimeMs := elapsedMs }, none)
  | "javascript" =>
    if goContains req.Code "console.log" then
      ({ Stdout := "JavaScript output: " ++ extractPrintContent req.Code "javascript",
         Stderr := "", Error := "", ExecTimeMs := elapsedMs }, none)
    else ({ zeroResult with ExecTimeMs := elapsedMs }, none)
  | "cpp" =>
    if goContains req.Code "cout" then
      ({ Stdout := "C++ output: " ++ extractPrintContent req.Code "cpp",
         Stderr := "", Error := "", ExecTimeMs := elapsedMs }, none)
    else ({ zeroResult with ExecTimeMs := elapsedMs }, none)
  | "java" =>
    if goContains req.Code "System.out.println" then
      ({ Stdout := "Java output: " ++ extractPrintContent req.Code "java",
         Stderr := "", Error := "", ExecTimeMs := elapsedMs }, none)
    else ({ zeroResult with ExecTimeMs := elapsedMs }, none)
  | "go" =>
    if goContains req.Code "fmt.Println" then
      ({ Stdout := "Go output: " ++ extractPrintContent req.Code "go",
         Stderr := "", Error := "", ExecTimeMs := elapsedMs }, none)
    else ({ zeroResult with ExecTimeMs := elapsedMs }, none)
  | other =>
    (zeroResult, some ("unsupported language in mock mode: " ++ other))

/-! ### Container configuration -/

/-- `buildCommand` of the executor draft used in production: with a stdin
file, every language's command is wrapped in a `/bin/sh -c` string that
redirects standard input from the file with `<`. -/
def buildCommand (codeFile stdinFile language : String) : List String :=
  match language with
  | "python" =>
    if stdinFile != "" then
      ["/bin/sh", "-c", "python3 " ++ codeFile ++ " < " ++ stdinFile]
    else ["python3", codeFile]
  | "javascript" =>
    if stdinFile != "" then
      ["/bin/sh", "-c", "node " ++ codeFile ++ " < " ++ stdinFile]
    else ["node", codeFile]
  | "cpp" =>
    if stdinFile != "" then
      ["/bin/sh", "-c", "./" ++ codeFile ++ " < " ++ stdinFile]
    else [codeFile]
  | "java" =>
    if stdinFile != "" then
      ["/bin/sh", "-c", "./" ++ codeFile ++ " < " ++ stdinFile]
    else [codeFile]
  | "go" =>
    if stdinFile != "" then
      ["/bin/sh", "-c", "go run " ++ codeFile ++ " < " ++ stdinFile]
    else ["go", "run", codeFile]
  | _ =>
    if stdinFile != "" then
      ["/bin/sh", "-c", codeFile ++ " < " ++ stdinFile]
    else [codeFile]

/-- `writeCodeFile`: the source file name chosen per language inside the
scratch directory. -/
def writeCodeFilename (tempDir language : String) : String :=
  tempDir ++ "/" ++
    (match language with
     | "python" => "main.py"
     | "javascript" => "main.js"
     | "cpp" => "main.cpp"
     | "java" => "Main.java"
     | "go" => "main.go"
     | _ => "main.txt")

/-- The `container.Config` composed by `createAndStartContainer`.
`AttachStdin` is never set by the source (Go zero value `false`): stdin is
delivered only through the command's shell redirection, never through the
container's attach stream. -/
structure ContainerConfig where
  Image : String
  Cmd : List String
  Tty : Bool
  AttachStdin : Bool
  WorkingDir : String
deriving DecidableEq

/-- The `container.HostConfig` composed by `createAndStartContainer`. -/
structure HostConfig where
  networkMode : String
  readonlyRootfs : Bool
  memory : Int
  nanoCPUs : Int
  pidsLimit : Int
  mountSource : String
  mountTarget : String
  mountReadOnly : Bool
deriving DecidableEq

def containerConfigFor (imageName codeFile stdinFile language : String) : ContainerConfig :=
  { Image := imageName,
    Cmd := buildCommand (goFilepathBase codeFile) (goFilepathBase stdinFile) language,
    Tty := false,
    AttachStdin := false,
    WorkingDir := "/code" }

def hostConfigFor (tempDir : String) : HostConfig :=
  { networkMode := DefaultNetworkPolicy,
    readonlyRootfs := true,
    memory := DefaultMemoryLimit,
    nanoCPUs := defaultNanoCPUs,
    pidsLimit := DefaultPidsLimit,
    mountSource := tempDir,
    mountTarget := "/code",
    mountReadOnly := false }

/-! ### The supervised execution (`Execute`) -/

/-- The externally visible side effects of one `Execute` call, in order. -/
inductive ExecEvent where
  | acquireSem
  | releaseSem
  | tempDirCreate
  | tempDirRemove
  | containerCreate
  | containerStart
  | containerStop
  | containerKill
  | containerRemove
deriving DecidableEq

/-- Outcome of the `select` on `ContainerWait`'s channels and the execution
context: an error-channel value (with the state of `execCtx.Err()` at that
moment), a status-channel value, or the context firing first. -/
inductive WaitOutcome where
  | errFromChannel (err : Option String) (deadlineExceeded : Bool)
  | statusFromChannel (code : Int)
  | ctxFired (deadlineExceeded : Bool)
deriving DecidableEq

/-- Oracle for every external interaction of one `Execute` call: the inbound
context, the Docker daemon and the filesystem.  `ctxDone` is the inbound
context's state at the semaphore `select`; `selectPrefersCtx` resolves Go's
random choice when both the semaphore send and `ctx.Done()` are ready;
`inspectErr` covers `ContainerInspect` returning an error or a nil `State`. -/
structure DockerBehavior where
  ctxDone : Bool
  selectPrefersCtx : Bool
  tempDirErr : Option String
  tempDir : String
  writeCodeErr : Option String
  writeStdinErr : Option String
  createErr : Option String
  containerID : String
  startErr : Option String
  createDeadlineExceeded : Bool
  waitOutcome : WaitOutcome
  inspectErr : Bool
  oomKilled : Bool
  logsErr : Option String
  logsStdout : String
  logsStderr : String
  stopErr : Bool
  elapsedMs : Int
deriving DecidableEq

/-- The `error` return of `Execute`: a typed `ExecutionError{Type, Message}`
or a generic wrapped error (`fmt.Errorf`). -/
inductive ExecErr where
  | execution (type message : String)
  | generic (msg : String)
deriving DecidableEq

/-- Result of one modelled `Execute` call: the `(ExecutionResult, error)`
return pair, the event trace, and the execution deadline composed by
`context.WithTimeout` (`none` when no deadline was composed: fallback mode and
admission rejections). -/
structure ExecOutcome where
  result : ExecutionResult
  err : Option ExecErr
  trace : List ExecEvent
  deadline : Option Int
deriving DecidableEq

structure CodeExecutor where
  hasDockerClient : Bool
  imagePrefix : String
  fallbackMode : Bool
  concurrentLimit : Int
deriving DecidableEq

structure ExecutorConfig where
  ImagePrefix : String
  ConcurrentLimit : Int
  DefaultTimeout : Int
deriving DecidableEq

/-- `NewExecutorWithConfig`: Docker-client creation failure or a failed
daemon ping selects fallback mode; the `error` return is always `nil`. -/
def newExecutorWithConfig (config : ExecutorConfig) (clientErr pingErr : Bool) :
    CodeExecutor × Option String :=
  let limit :=
    if config.ConcurrentLimit ≤ 0 then DefaultConcurrentLimit
    else config.ConcurrentLimit
  if clientErr then
    ({ hasDockerClient := false, imagePrefix := config.ImagePrefix,
       fallbackMode := true, concurrentLimit := limit }, none)
  else if pingErr then
    ({ hasDockerClient := false, imagePrefix := config.ImagePrefix,
       fallbackMode := true, concurrentLimit := limit }, none)
  else
    ({ hasDockerClient := true, imagePrefix := config.ImagePrefix,
       fallbackMode := false, concurrentLimit := limit }, none)

/-- The timeout validation at the top of `Execute`. -/
def clampTimeout (t : Int) : Int :=
  if t ≤ 0 then DefaultExecutionTime
  else if t > MaxExecutionTime then MaxExecutionTime
  else t

/-- `cleanupContainer`: graceful stop, `SIGKILL` only if the stop failed, then
forced removal. -/
def cleanupContainerEvents (stopFails : Bool) : List ExecEvent :=
  [ExecEvent.containerStop] ++
    (if stopFails then [ExecEvent.containerKill] else []) ++
    [ExecEvent.containerRemove]

/-- `createAndStartContainer`: composes the container configuration, creates
the container, starts it.  Returns the composed configs, the `(id, error)`
pair (the id is returned even when the start fails, "for cleanup"), and the
Docker events issued. -/
def createAndStartContainer (beh : DockerBehavior)
    (imageName tempDir codeFile stdinFile language : String) :
    ContainerConfig × HostConfig × (String × Option String) × List ExecEvent :=
  let config := containerConfigFor imageName codeFile stdinFile language
  let host := hostConfigFor tempDir
  match beh.createErr with
  | some msg => (config, host, ("", some msg), [ExecEvent.containerCreate])
  | none =>
    match beh.startErr with
    | some msg =>
      (config, host, (beh.containerID, some msg),
       [ExecEvent.containerCreate, ExecEvent.containerStart])
    | none =>
      (config, host, (beh.containerID, none),
       [ExecEvent.containerCreate, ExecEvent.containerStart])

/-- The non-zero-exit classification at the end of `Execute`. -/
def classifyExit (language : String) (statusCode : Int) (stderr : String) : String :=
  match languageCompilers language with
  | some true =>
    if goContains stderr "error" || goContains stderr "Error" then
      "Compilation error (exit code " ++ toString statusCode ++ ")"
    else
      "Runtime error (exit code " ++ toString statusCode ++ ")"
  | some false => "Process exited with code " ++ toString statusCode
  | none => "Process exited with code " ++ toString statusCode

/-- The tail of `Execute` after a successful `ContainerWait`: OOM inspection,
log capture, result assembly. -/
def afterWait (req : ExecutionRequest) (beh : DockerBehavior) (statusCode : Int)
    (pre post : List ExecEvent) :
    ExecutionResult × Option ExecErr × List ExecEvent :=
  if beh.inspectErr = false ∧ beh.oomKilled = true then
    (zeroResult, some (.execution "memory_limit" "execution exceeded memory limit"),
     pre ++ post)
  else
    match beh.logsErr with
    | some m =>
      (zeroResult, some (.generic ("failed to get container logs: " ++ m)), pre ++ post)
    | none =>
      let errStr :=
        if statusCode ≠ 0 then classifyExit req.Language statusCode beh.logsStderr
        else ""
      ({ Stdout := beh.logsStdout, Stderr := beh.logsStderr, Error := errStr,
         ExecTimeMs := beh.elapsedMs }, none, pre ++ post)

/-- The body of `Execute` after the semaphore was acquired (the deferred
semaphore release is appended by `Execute` itself, after all other deferred
actions).  `timeout` is the already clamped execution deadline.  Note that the
`cleanupContainer` defer is registered only after the error check on
`createAndStartContainer`, so the create-error and start-error returns issue
no container cleanup events. -/
def executeBody (e : CodeExecutor) (req : ExecutionRequest) (beh : DockerBehavior)
    (timeout : Int) : ExecutionResult × Option ExecErr × List ExecEvent :=
  match supportedLanguages req.Language with
  | none =>
    (zeroResult,
     some (.execution "unsupported_language" ("unsupported language: " ++ req.Language)),
     [])
  | some baseImage =>
    let imageName :=
      if e.imagePrefix != "" then e.imagePrefix ++ baseImage else baseImage
    match beh.tempDirErr with
    | some m => (zeroResult, some (.generic ("failed to create temp directory: " ++ m)), [])
    | none =>
      let codeFile := writeCodeFilename beh.tempDir req.Language
      match beh.writeCodeErr with
      | some m =>
        (zeroResult, some (.generic ("failed to write code file: " ++ m)),
         [ExecEvent.tempDirCreate, ExecEvent.tempDirRemove])
      | none =>
        let stdinFile := if req.Stdin != "" then beh.tempDir ++ "/input.txt" else ""
        match (if req.Stdin != "" then beh.writeStdinErr else none) with
        | some m =>
          (zeroResult, some (.generic ("failed to write stdin file: " ++ m)),
           [ExecEvent.tempDirCreate, ExecEvent.tempDirRemove])
        | none =>
          let created := createAndStartContainer beh imageName beh.tempDir
            codeFile stdinFile req.Language
          match created.2.2.1.2 with
          | some msg =>
            if beh.createDeadlineExceeded then
              (zeroResult,
               some (.execution "timeout"
                 ("container creation timed out after " ++ toString timeout)),
               [ExecEvent.tempDirCreate] ++ created.2.2.2 ++ [ExecEvent.tempDirRemove])
            else
              (zeroResult, some (.generic ("container execution failed: " ++ msg)),
               [ExecEvent.tempDirCreate] ++ created.2.2.2 ++ [ExecEvent.tempDirRemove])
          | none =>
            let pre := [ExecEvent.tempDirCreate] ++ created.2.2.2
            let post := cleanupContainerEvents beh.stopErr ++ [ExecEvent.tempDirRemove]
            match beh.waitOutcome with
            | .errFromChannel werr dl =>
              if dl then
                (zeroResult,
                 some (.execution "timeout"
                   ("execution timed out after " ++ toString timeout)),
                 pre ++ post)
              else
                match werr with
                | some m =>
                  (zeroResult, some (.generic ("error waiting for container: " ++ m)),
                   pre ++ post)
                | none => afterWait req beh 0 pre post
            | .statusFromChannel code => afterWait req beh code pre post
            | .ctxFired dl =>
              if dl then
                (zeroResult,
                 some (.execution "timeout"
                   ("execution timed out after " ++ toString timeout)),
                 pre ++ post)
              else
                (zeroResult, some (.generic "execution canceled"), pre ++ post)

/-- `Execute` of the executor package.  `semCount` is the number of in-flight
executions holding the semaphore when this call performs its non-blocking
`select`; a buffered-channel send is ready exactly when `semCount` is below
the capacity. -/
def Execute (e : CodeExecutor) (semCount : Nat) (req : ExecutionRequest)
    (beh : DockerBehavior) : ExecOutcome :=
  if e.fallbackMode then
    let mock := mockExecute req beh.elapsedMs
    { result := mock.1, err := Option.map ExecErr.generic mock.2,
      trace := [], deadline := none }
  else
    let timeout := clampTimeout req.Timeout
    if (semCount : Int) < e.concurrentLimit ∧
       ¬(beh.ctxDone = true ∧ beh.selectPrefersCtx = true) then
      let body := executeBody e req beh timeout
      { result := body.1, err := body.2.1,
        trace := [ExecEvent.acquireSem] ++ body.2.2 ++ [ExecEvent.releaseSem],
        deadline := some timeout }
    else if beh.ctxDone then
      { result := zeroResult,
        err := some (.execution "timeout" "execution queue is full, try again later"),
        trace := [], deadline := none }
    else
      { result := zeroResult,
        err := some (.execution "limit_exceeded"
          "too many concurrent executions, try again later"),
        trace := [], deadline := none }

/-! ## The front controller (`executeHandler`) -/

/-- The timeout conversion of `executeHandler`: a positive request timeout in
seconds becomes a duration capped at `MaxExecutionTime`; a missing or
non-positive one is left as the zero duration (which `Execute` then raises to
`DefaultExecutionTime`). -/
def handlerTimeout (t : Int) : Int :=
  if t > 0 then
    let d := t * 1000000000
    if d > MaxExecutionTime then MaxExecutionTime else d
  else 0

/-- The `switch execErr.Type` of `executeHandler`. -/
def mapErrorTypeStatus (t : String) : Nat :=
  match t with
  | "timeout" => 408
  | "memory_limit" => 413
  | "limit_exceeded" => 429
  | "unsupported_language" => 400
  | _ => 500

/-- The HTTP status chosen by `executeHandler` from `Execute`'s error return:
200 on `nil`, the typed mapping for an `ExecutionError`, 500 for generic
errors. -/
def handlerStatus (err : Option ExecErr) : Nat :=
  match err with
  | none => 200
  | some (.execution t _) => mapErrorTypeStatus t
  | some (.generic _) => 500

/-! ## Spec-side definitions used for comparison -/

/-- Modelled from the spec's words (for the refinement comparison of claim
C1): the request timeout "clamped to the interval
[DEFAULT_TIMEOUT, MAX_TIMEOUT]". -/
def specIntervalClamp (t : Int) : Int :=
  max DefaultExecutionTime (min t MaxExecutionTime)

/-- Modelled from the spec's words (claim C9): the language-tagged prefixes
that mark mock output as coming from fallback mode.  A response "carries a
marker" when its stdout or stderr starts with one of them. -/
def fallbackMarkers : List String :=
  ["Python output: ", "JavaScript output: ", "C++ output: ", "Java output: ",
   "Go output: ", "Python error: Simulated exception"]

def carriesFallbackMarker (r : ExecutionResult) : Bool :=
  fallbackMarkers.any (fun m => m.isPrefixOf r.Stdout || m.isPrefixOf r.Stderr)

/-! ## Concrete sample values for closed evaluations -/

/-- An executor connected to a live Docker daemon, default configuration. -/
def realCfg : CodeExecutor :=
  { hasDockerClient := true, imagePrefix := "", fallbackMode := false,
    concurrentLimit := 10 }

/-- A behavior in which every external call succeeds and the workload exits
with status 0. -/
def okBeh : DockerBehavior :=
  { ctxDone := false, selectPrefersCtx := false, tempDirErr := none,
    tempDir := "/tmp/aggiecode-python-123", writeCodeErr := none,
    writeStdinErr := none, createErr := none, containerID := "cid-1",
    startErr := none, createDeadlineExceeded := false,
    waitOutcome := .statusFromChannel 0, inspectErr := false, oomKilled := false,
    logsErr := none, logsStdout := "hello\n", logsStderr := "", stopErr := false,
    elapsedMs := 5 }

def pyReq : ExecutionRequest :=
  { Language := "python", Code := "print(1)", Stdin := "", Timeout := 0 }

/-! ## Claim C1 -/

/-- Claim C1 counterexample: a request with `timeout = 2` seconds is admitted
and supervised under a 2-second deadline.  Clamping to the interval
`[DEFAULT_TIMEOUT, MAX_TIMEOUT]` would give 10 seconds, so the effective
deadline is not the interval clamp and is strictly below `DEFAULT_TIMEOUT`. -/
theorem execute_deadline_below_default :
    (Execute realCfg 0
        { Language := "python", Code := "print(1)", Stdin := "",
          Timeout := handlerTimeout 2 } okBeh).deadline = some 2000000000
    ∧ specIntervalClamp 2000000000 = 10000000000
    ∧ (2000000000 : Int) < DefaultExecutionTime := by
  refine ⟨rfl, rfl, by decide⟩

/-- Claim C1 (amended): for every admitted container-backed execution the
effective deadline is `clampTimeout request.timeout`, where a missing or
non-positive timeout becomes `DEFAULT_TIMEOUT`, a timeout above `MAX_TIMEOUT`
becomes `MAX_TIMEOUT`, and a positive timeout at most `MAX_TIMEOUT` is used
unchanged (so deadlines below `DEFAULT_TIMEOUT` are possible). -/
theorem execute_deadline_is_clamp (e : CodeExecutor) (semCount : Nat)
    (req : ExecutionRequest) (beh : DockerBehavior)
    (hf : e.fallbackMode = false)
    (hadm : ExecEvent.acquireSem ∈ (Execute e semCount req beh).trace) :
    (Execute e semCount req beh).deadline = some (clampTimeout req.Timeout)
    ∧ (req.Timeout ≤ 0 → clampTimeout req.Timeout = DefaultExecutionTime)
    ∧ (MaxExecutionTime < req.Timeout → clampTimeout req.Timeout = MaxExecutionTime)
    ∧ (0 < req.Timeout → req.Timeout ≤ MaxExecutionTime →
        clampTimeout req.Timeout = req.Timeout) := by
  refine ⟨?_, ?_, ?_, ?_⟩
  · by_cases hc : (semCount : Int) < e.concurrentLimit ∧
        ¬(beh.ctxDone = true ∧ beh.selectPrefersCtx = true)
    · simp only [Execute, hf, Bool.false_eq_true, if_false, if_pos hc]
    · exfalso
      simp only [Execute, hf, Bool.false_eq_true, if_false, if_neg hc] at hadm
      by_cases hd : beh.ctxDone = true <;> simp [hd] at hadm
  · intro h; simp only [clampTimeout, if_pos h]
  · intro h
    have h0 : ¬ req.Timeout ≤ 0 := by
      simp only [MaxExecutionTime] at h; omega
    simp only [clampTimeout, if_neg h0, if_pos h]
  · intro h1 h2
    have h0 : ¬ req.Timeout ≤ 0 := by omega
    have h3 : ¬ MaxExecutionTime < req.Timeout := by omega
    simp only [clampTimeout, if_neg h0, if_neg h3]

/-- Claim C1 witness: the amended statement evaluated on a concrete admitted
request with a 2-second timeout. -/
theorem execute_deadline_is_clamp_w :
    (Execute realCfg 0
        { Language := "python", Code := "print(1)", Stdin := "",
          Timeout := 2000000000 } okBeh).deadline
      = some (clampTimeout 2000000000)
    ∧ ((2000000000 : Int) ≤ 0 → clampTimeout 2000000000 = DefaultExecutionTime)
    ∧ (MaxExecutionTime < 2000000000 → clampTimeout 2000000000 = MaxExecutionTime)
    ∧ ((0 : Int) < 2000000000 → (2000000000 : Int) ≤ MaxExecutionTime →
        clampTimeout 2000000000 = 2000000000) :=
  execute_deadline_is_clamp realCfg 0
    { Language := "python", Code := "print(1)", Stdin := "", Timeout := 2000000000 }
    okBeh rfl (by decide)

/-! ## Claim C2 -/

/-- A request for a language tag that is not in the catalog. -/
def rustReq : ExecutionRequest :=
  { Language := "rust", Code := "fn main()", Stdin := "", Timeout := 0 }

/-- Claim C2 counterexample: the unknown tag "rust" is not rejected before
admission.  With a free semaphore the request does fail with
`unsupported_language`, but the global concurrency semaphore *is* acquired
first (the catalog lookup happens only after admission, so the in-flight count
is transiently increased); and with a full semaphore (10 in flight against the
default limit of 10) the very same request fails with `limit_exceeded`
instead — admission even masks the unsupported-language error. -/
theorem unsupported_language_acquires_semaphore :
    (Execute realCfg 0 rustReq okBeh).err
      = some (.execution "unsupported_language" "unsupported language: rust")
    ∧ ExecEvent.acquireSem ∈ (Execute realCfg 0 rustReq okBeh).trace
    ∧ (Execute realCfg 10 rustReq okBeh).err
      = some (.execution "limit_exceeded"
          "too many concurrent executions, try again later") := by
  exact ⟨rfl, by decide, rfl⟩

/-- Claim C2 (amended): the catalog lookup sits after admission.  For a
request whose language tag is not in the catalog and whose inbound context is
live: if the semaphore has a free slot, execution fails with an error of type
`unsupported_language`, but only after the slot has been acquired — the slot
is released when `Execute` returns (so the in-flight count is unchanged after
the call) and no sandbox resources are provisioned, the trace being exactly an
acquire/release pair with no scratch-directory or container events; if the
semaphore is full, the request instead fails with `limit_exceeded` and the
unsupported language is never reported. -/
theorem unsupported_language_rejected_after_admission (e : CodeExecutor)
    (semCount : Nat) (req : ExecutionRequest) (beh : DockerBehavior)
    (hf : e.fallbackMode = false)
    (hlang : supportedLanguages req.Language = none)
    (hctx : beh.ctxDone = false) :
    ((semCount : Int) < e.concurrentLimit →
      (Execute e semCount req beh).err
        = some (.execution "unsupported_language"
            ("unsupported language: " ++ req.Language))
      ∧ (Execute e semCount req beh).trace
        = [ExecEvent.acquireSem, ExecEvent.releaseSem])
    ∧ (e.concurrentLimit ≤ (semCount : Int) →
      (Execute e semCount req beh).err
        = some (.execution "limit_exceeded"
            "too many concurrent executions, try again later")
      ∧ (Execute e semCount req beh).trace = []) := by
  constructor
  · intro hcap
    have hcond : (semCount : Int) < e.concurrentLimit ∧
        ¬(beh.ctxDone = true ∧ beh.selectPrefersCtx = true) :=
      ⟨hcap, by simp [hctx]⟩
    refine ⟨?_, ?_⟩ <;>
      simp only [Execute, hf, Bool.false_eq_true, if_false, if_pos hcond,
        executeBody, hlang, List.append_nil, List.cons_append, List.nil_append]
  · intro hfull
    have hnc : ¬((semCount : Int) < e.concurrentLimit ∧
        ¬(beh.ctxDone = true ∧ beh.selectPrefersCtx = true)) := by
      intro hc
      exact absurd hc.1 (not_lt.mpr hfull)
    have hr : Execute e semCount req beh
        = { result := zeroResult,
            err := some (.execution "limit_exceeded"
              "too many concurrent executions, try again later"),
            trace := [], deadline := none } := by
      simp only [Execute, hf, Bool.false_eq_true, if_false]
      rw [if_neg hnc]
      simp only [hctx, Bool.false_eq_true, if_false]
    exact ⟨by rw [hr], by rw [hr]⟩

/-- Claim C2 witness: the amended statement evaluated at the unknown tag
"rust" with a free semaphore (0 in flight below the limit of 10), together
with the antecedent of the non-vacuous branch. -/
theorem unsupported_language_rejected_after_admission_w :
    ((((0 : Nat) : Int) < realCfg.concurrentLimit →
      (Execute realCfg 0 rustReq okBeh).err
        = some (.execution "unsupported_language"
            ("unsupported language: " ++ "rust"))
      ∧ (Execute realCfg 0 rustReq okBeh).trace
        = [ExecEvent.acquireSem, ExecEvent.releaseSem])
    ∧ (realCfg.concurrentLimit ≤ ((0 : Nat) : Int) →
      (Execute realCfg 0 rustReq okBeh).err
        = some (.execution "limit_exceeded"
            "too many concurrent executions, try again later")
      ∧ (Execute realCfg 0 rustReq okBeh).trace = []))
    ∧ ((0 : Nat) : Int) < realCfg.concurrentLimit :=
  ⟨unsupported_language_rejected_after_admission realCfg 0 rustReq okBeh
      rfl rfl rfl,
   by decide⟩

/-! ## Claim C3 -/

/-- Claim C3 (code-bug evaluation): the benign submission
`import math\nprint(math.pi)` — whose only import is the allow-listed module
`math` and which contains none of the denied patterns — is nevertheless
*rejected* by `SanitizeCode`.  The python allow-list regexes use the Perl
look-ahead `(?!…)`, which Go's RE2 engine refuses to compile, and
`SanitizeCode` treats the resulting `MatchString` error exactly like a match
(`err != nil || matched`), so every python program containing `import` or
`from` is rejected. -/
theorem sanitize_rejects_allowlisted_python_import :
    SanitizeCode { maxCodeLength := 1000 } "import math\nprint(math.pi)" "python"
      = some (.sanitization "Prohibited python code pattern detected"
          "Unauthorized module or operation")
    ∧ matchPatterns pythonImportPatterns "import math\nprint(math.pi)"
      = .error () := by
  exact ⟨rfl, rfl⟩

/-! ## Claim C4 -/

/-- Claim C4: when the counting semaphore is full and the inbound context is
live, `Execute` rejects immediately with an error of type `limit_exceeded` and
an empty trace (no acquire, no blocking, no sandbox resources, in-flight count
unchanged); the semaphore is only ever acquired when the in-flight count is
strictly below the configured concurrent limit; and the front controller maps
`limit_exceeded` to HTTP 429. -/
theorem semaphore_full_rejects_limit_exceeded (e : CodeExecutor) (semCount : Nat)
    (req : ExecutionRequest) (beh : DockerBehavior)
    (hf : e.fallbackMode = false) :
    (e.concurrentLimit ≤ (semCount : Int) → beh.ctxDone = false →
        (Execute e semCount req beh).err
          = some (.execution "limit_exceeded"
              "too many concurrent executions, try again later")
        ∧ (Execute e semCount req beh).trace = [])
    ∧ (ExecEvent.acquireSem ∈ (Execute e semCount req beh).trace →
        (semCount : Int) < e.concurrentLimit)
    ∧ mapErrorTypeStatus "limit_exceeded" = 429 := by
  refine ⟨?_, ?_, rfl⟩
  · intro hfull hctx
    have hnc : ¬((semCount : Int) < e.concurrentLimit ∧
        ¬(beh.ctxDone = true ∧ beh.selectPrefersCtx = true)) := by
      intro hc
      exact absurd hc.1 (not_lt.mpr hfull)
    have hr : Execute e semCount req beh
        = { result := zeroResult,
            err := some (.execution "limit_exceeded"
              "too many concurrent executions, try again later"),
            trace := [], deadline := none } := by
      simp only [Execute, hf, Bool.false_eq_true, if_false]
      rw [if_neg hnc]
      simp only [hctx, Bool.false_eq_true, if_false]
    exact ⟨by rw [hr], by rw [hr]⟩
  · intro hmem
    by_contra hge
    have hnc : ¬((semCount : Int) < e.concurrentLimit ∧
        ¬(beh.ctxDone = true ∧ beh.selectPrefersCtx = true)) := by
      intro hc
      exact hge hc.1
    simp only [Execute, hf, Bool.false_eq_true, if_false, if_neg hnc] at hmem
    by_cases hd : beh.ctxDone = true <;> simp [hd] at hmem

/-- Claim C4 witness: a full semaphore (10 in-flight executions against the
default limit of 10) with a live context. -/
theorem semaphore_full_rejects_limit_exceeded_w :
    ((realCfg.concurrentLimit ≤ ((10 : Nat) : Int) → okBeh.ctxDone = false →
        (Execute realCfg 10 pyReq okBeh).err
          = some (.execution "limit_exceeded"
              "too many concurrent executions, try again later")
        ∧ (Execute realCfg 10 pyReq okBeh).trace = [])
    ∧ (ExecEvent.acquireSem ∈ (Execute realCfg 10 pyReq okBeh).trace →
        ((10 : Nat) : Int) < realCfg.concurrentLimit)
    ∧ mapErrorTypeStatus "limit_exceeded" = 429)
    ∧ realCfg.concurrentLimit ≤ ((10 : Nat) : Int) :=
  ⟨semaphore_full_rejects_limit_exceeded realCfg 10 pyReq okBeh rfl, by decide⟩

/-! ## Claim C5 -/

/-- The all-good behavior with a failing `ContainerStart`. -/
def startFailBeh : DockerBehavior :=
  { okBeh with startErr := some "start failed" }

/-- Claim C5 (code-bug evaluation).  On the fully successful path the cleanup
sequence does run in the claimed order (stop, remove — kill only when the stop
fails — then scratch removal, then semaphore release).  But on the exit path
where the container was created and `ContainerStart` fails, `Execute` returns
before the `cleanupContainer` defer is registered: the created container is
never stopped, killed or removed, while the scratch directory is removed and
the semaphore released — the container leaks, contradicting unconditional
cleanup. -/
theorem start_failure_skips_container_cleanup :
    (Execute realCfg 0 pyReq okBeh).trace
      = [ExecEvent.acquireSem, ExecEvent.tempDirCreate, ExecEvent.containerCreate,
         ExecEvent.containerStart, ExecEvent.containerStop, ExecEvent.containerRemove,
         ExecEvent.tempDirRemove, ExecEvent.releaseSem]
    ∧ (Execute realCfg 0 pyReq startFailBeh).err
      = some (.generic "container execution failed: start failed")
    ∧ ExecEvent.containerCreate ∈ (Execute realCfg 0 pyReq startFailBeh).trace
    ∧ ExecEvent.containerStop ∉ (Execute realCfg 0 pyReq startFailBeh).trace
    ∧ ExecEvent.containerKill ∉ (Execute realCfg 0 pyReq startFailBeh).trace
    ∧ ExecEvent.containerRemove ∉ (Execute realCfg 0 pyReq startFailBeh).trace
    ∧ ExecEvent.tempDirRemove ∈ (Execute realCfg 0 pyReq startFailBeh).trace
    ∧ ExecEvent.releaseSem ∈ (Execute realCfg 0 pyReq startFailBeh).trace := by
  refine ⟨rfl, rfl, ?_, ?_, ?_, ?_, ?_, ?_⟩ <;> decide

/-! ## Claim C6 -/

/-- Claim C6: when the post-wait `ContainerInspect` succeeds and reports an
OOM kill, `Execute` returns an error of type `memory_limit` together with the
empty (zero-value) result, and the front controller maps `memory_limit` to
HTTP status 413. -/
theorem oom_kill_yields_memory_limit (e : CodeExecutor) (semCount : Nat)
    (req : ExecutionRequest) (beh : DockerBehavior) (c : Int)
    (hf : e.fallbackMode = false) (hctx : beh.ctxDone = false)
    (hcap : (semCount : Int) < e.concurrentLimit)
    (hlang : (supportedLanguages req.Language).isSome = true)
    (htmp : beh.tempDirErr = none) (hwc : beh.writeCodeErr = none)
    (hws : beh.writeStdinErr = none) (hcr : beh.createErr = none)
    (hst : beh.startErr = none)
    (hwait : beh.waitOutcome = .statusFromChannel c)
    (hins : beh.inspectErr = false) (hoom : beh.oomKilled = true) :
    (Execute e semCount req beh).err
      = some (.execution "memory_limit" "execution exceeded memory limit")
    ∧ (Execute e semCount req beh).result = zeroResult
    ∧ mapErrorTypeStatus "memory_limit" = 413 := by
  obtain ⟨img, himg⟩ := Option.isSome_iff_exists.mp hlang
  have hcond : (semCount : Int) < e.concurrentLimit ∧
      ¬(beh.ctxDone = true ∧ beh.selectPrefersCtx = true) :=
    ⟨hcap, by simp [hctx]⟩
  have hbody2 :
      (executeBody e req beh (clampTimeout req.Timeout)).2.1
        = some (.execution "memory_limit" "execution exceeded memory limit")
      ∧ (executeBody e req beh (clampTimeout req.Timeout)).1 = zeroResult := by
    constructor <;>
      simp only [executeBody, himg, htmp, hwc, hws, ite_self,
        createAndStartContainer, hcr, hst, hwait, afterWait, hins, hoom,
        and_self, if_true]
  refine ⟨?_, ?_, rfl⟩ <;>
    simp only [Execute, hf, Bool.false_eq_true, if_false, if_pos hcond,
      hbody2.1, hbody2.2]

/-- The all-good behavior, except that the inspection reports an OOM kill. -/
def oomBeh : DockerBehavior :=
  { okBeh with oomKilled := true }

/-- Claim C6 witness: a concrete OOM-killed execution. -/
theorem oom_kill_yields_memory_limit_w :
    (Execute realCfg 0 pyReq oomBeh).err
      = some (.execution "memory_limit" "execution exceeded memory limit")
    ∧ (Execute realCfg 0 pyReq oomBeh).result = zeroResult
    ∧ mapErrorTypeStatus "memory_limit" = 413 :=
  oom_kill_yields_memory_limit realCfg 0 pyReq oomBeh 0 rfl rfl (by decide)
    rfl rfl rfl rfl rfl rfl rfl rfl rfl

/-! ## Claim C7 -/

/-- Claim C7: an execution that terminates naturally with a non-zero status
(no OOM kill, logs captured) returns the captured stdout/stderr with a `nil`
error, so the front controller responds 200; the recorded classification is
"Compilation error" for a compiled language whose stderr contains "error" or
"Error", "Runtime error" for a compiled language without those substrings, and
"Process exited with code N" for languages not marked as compiled. -/
theorem nonzero_exit_classified_with_nil_error (e : CodeExecutor)
    (semCount : Nat) (req : ExecutionRequest) (beh : DockerBehavior) (c : Int)
    (hf : e.fallbackMode = false) (hctx : beh.ctxDone = false)
    (hcap : (semCount : Int) < e.concurrentLimit)
    (hlang : (supportedLanguages req.Language).isSome = true)
    (htmp : beh.tempDirErr = none) (hwc : beh.writeCodeErr = none)
    (hws : beh.writeStdinErr = none) (hcr : beh.createErr = none)
    (hst : beh.startErr = none)
    (hwait : beh.waitOutcome = .statusFromChannel c) (hc : c ≠ 0)
    (hnoom : beh.oomKilled = false) (hlogs : beh.logsErr = none) :
    (Execute e semCount req beh).err = none
    ∧ (Execute e semCount req beh).result.Stdout = beh.logsStdout
    ∧ (Execute e semCount req beh).result.Stderr = beh.logsStderr
    ∧ (Execute e semCount req beh).result.Error
        = classifyExit req.Language c beh.logsStderr
    ∧ (languageCompilers req.Language = some true →
        (goContains beh.logsStderr "error" || goContains beh.logsStderr "Error") = true →
        classifyExit req.Language c beh.logsStderr
          = "Compilation error (exit code " ++ toString c ++ ")")
    ∧ (languageCompilers req.Language = some true →
        (goContains beh.logsStderr "error" || goContains beh.logsStderr "Error") = false →
        classifyExit req.Language c beh.logsStderr
          = "Runtime error (exit code " ++ toString c ++ ")")
    ∧ (languageCompilers req.Language = none →
        classifyExit req.Language c beh.logsStderr
          = "Process exited with code " ++ toString c)
    ∧ handlerStatus none = 200 := by
  obtain ⟨img, himg⟩ := Option.isSome_iff_exists.mp hlang
  have hcond : (semCount : Int) < e.concurrentLimit ∧
      ¬(beh.ctxDone = true ∧ beh.selectPrefersCtx = true) :=
    ⟨hcap, by simp [hctx]⟩
  have hnoomc : ¬(beh.inspectErr = false ∧ beh.oomKilled = true) := by
    intro h
    rw [hnoom] at h
    exact Bool.false_ne_true h.2
  have hbody :
      (executeBody e req beh (clampTimeout req.Timeout)).2.1 = none
      ∧ (executeBody e req beh (clampTimeout req.Timeout)).1
        = { Stdout := beh.logsStdout, Stderr := beh.logsStderr,
            Error := classifyExit req.Language c beh.logsStderr,
            ExecTimeMs := beh.elapsedMs } := by
    constructor <;>
      simp only [executeBody, himg, htmp, hwc, hws, ite_self,
        createAndStartContainer, hcr, hst, hwait, afterWait, if_neg hnoomc,
        hlogs, if_pos hc]
  refine ⟨?_, ?_, ?_, ?_, ?_, ?_, ?_, rfl⟩
  · simp only [Execute, hf, Bool.false_eq_true, if_false, if_pos hcond, hbody.1]
  · simp only [Execute, hf, Bool.false_eq_true, if_false, if_pos hcond, hbody.2]
  · simp only [Execute, hf, Bool.false_eq_true, if_false, if_pos hcond, hbody.2]
  · simp only [Execute, hf, Bool.false_eq_true, if_false, if_pos hcond, hbody.2]
  · intro hcomp hstderr
    simp only [classifyExit, hcomp, hstderr, if_pos]
  · intro hcomp hstderr
    simp only [classifyExit, hcomp, hstderr, Bool.false_eq_true, if_false]
  · intro hcomp
    simp only [classifyExit, hcomp]

/-- The all-good behavior with a non-zero exit status and compiler
diagnostics on stderr. -/
def exitOneBeh : DockerBehavior :=
  { okBeh with waitOutcome := .statusFromChannel 1,
               logsStdout := "",
               logsStderr := "main.cpp:1: error: expected expression" }

def cppReq : ExecutionRequest :=
  { Language := "cpp", Code := "int main()", Stdin := "", Timeout := 0 }

/-- Claim C7 witness: a C++ submission exiting with status 1 and "error" on
stderr. -/
theorem nonzero_exit_classified_with_nil_error_w :
    (Execute realCfg 0 cppReq exitOneBeh).err = none
    ∧ (Execute realCfg 0 cppReq exitOneBeh).result.Stdout = exitOneBeh.logsStdout
    ∧ (Execute realCfg 0 cppReq exitOneBeh).result.Stderr = exitOneBeh.logsStderr
    ∧ (Execute realCfg 0 cppReq exitOneBeh).result.Error
        = classifyExit cppReq.Language 1 exitOneBeh.logsStderr
    ∧ (languageCompilers cppReq.Language = some true →
        (goContains exitOneBeh.logsStderr "error"
          || goContains exitOneBeh.logsStderr "Error") = true →
        classifyExit cppReq.Language 1 exitOneBeh.logsStderr
          = "Compilation error (exit code " ++ toString (1 : Int) ++ ")")
    ∧ (languageCompilers cppReq.Language = some true →
        (goContains exitOneBeh.logsStderr "error"
          || goContains exitOneBeh.logsStderr "Error") = false →
        classifyExit cppReq.Language 1 exitOneBeh.logsStderr
          = "Runtime error (exit code " ++ toString (1 : Int) ++ ")")
    ∧ (languageCompilers cppReq.Language = none →
        classifyExit cppReq.Language 1 exitOneBeh.logsStderr
          = "Process exited with code " ++ toString (1 : Int))
    ∧ handlerStatus none = 200 :=
  nonzero_exit_classified_with_nil_error realCfg 0 cppReq exitOneBeh 1
    rfl rfl (by decide) rfl rfl rfl rfl rfl rfl rfl (by decide) rfl rfl

/-! ## Claim C8 -/

/-- Claim C8: for every supported language, when a (non-empty) stdin file is
present the container command is a `/bin/sh -c` invocation whose command
string redirects standard input from the stdin file with `<`; and the
container configuration never enables the attach stream for stdin
(`AttachStdin` keeps its zero value `false`). -/
theorem stdin_redirected_via_shell (codeFile stdinFile : String)
    (h : stdinFile ≠ "") :
    buildCommand codeFile stdinFile "python"
      = ["/bin/sh", "-c", "python3 " ++ codeFile ++ " < " ++ stdinFile]
    ∧ buildCommand codeFile stdinFile "javascript"
      = ["/bin/sh", "-c", "node " ++ codeFile ++ " < " ++ stdinFile]
    ∧ buildCommand codeFile stdinFile "cpp"
      = ["/bin/sh", "-c", "./" ++ codeFile ++ " < " ++ stdinFile]
    ∧ buildCommand codeFile stdinFile "java"
      = ["/bin/sh", "-c", "./" ++ codeFile ++ " < " ++ stdinFile]
    ∧ buildCommand codeFile stdinFile "go"
      = ["/bin/sh", "-c", "go run " ++ codeFile ++ " < " ++ stdinFile]
    ∧ (∀ imageName language : String,
        (containerConfigFor imageName codeFile stdinFile language).AttachStdin
          = false) := by
  have hb : (stdinFile != "") = true := bne_iff_ne.mpr h
  refine ⟨?_, ?_, ?_, ?_, ?_, fun imageName language => rfl⟩ <;>
    simp only [buildCommand, hb, if_true, String.append_assoc]

/-- Claim C8 witness: the concrete stdin file written by the provisioner. -/
theorem stdin_redirected_via_shell_w :
    buildCommand "main.py" "input.txt" "python"
      = ["/bin/sh", "-c", "python3 " ++ "main.py" ++ " < " ++ "input.txt"]
    ∧ buildCommand "main.py" "input.txt" "javascript"
      = ["/bin/sh", "-c", "node " ++ "main.py" ++ " < " ++ "input.txt"]
    ∧ buildCommand "main.py" "input.txt" "cpp"
      = ["/bin/sh", "-c", "./" ++ "main.py" ++ " < " ++ "input.txt"]
    ∧ buildCommand "main.py" "input.txt" "java"
      = ["/bin/sh", "-c", "./" ++ "main.py" ++ " < " ++ "input.txt"]
    ∧ buildCommand "main.py" "input.txt" "go"
      = ["/bin/sh", "-c", "go run " ++ "main.py" ++ " < " ++ "input.txt"]
    ∧ (∀ imageName language : String,
        (containerConfigFor imageName "main.py" "input.txt" language).AttachStdin
          = false) :=
  stdin_redirected_via_shell "main.py" "input.txt" (by decide)

/-! ## Claim C9 -/

/-- Claim C9 counterexample: in fallback mode, the python submission
`x = 1` — which contains no recognizable print statement — produces the
all-empty zero result with a `nil` error.  It carries no fallback marker at
all, and is therefore indistinguishable from a real container execution of a
program that prints nothing. -/
theorem fallback_printless_has_no_marker :
    (mockExecute
        { Language := "python", Code := "x = 1", Stdin := "", Timeout := 0 }
        0).1 = zeroResult
    ∧ carriesFallbackMarker
        (mockExecute
          { Language := "python", Code := "x = 1", Stdin := "", Timeout := 0 }
          0).1 = false
    ∧ (mockExecute
        { Language := "python", Code := "x = 1", Stdin := "", Timeout := 0 }
        0).2 = none := by
  exact ⟨rfl, by decide, rfl⟩

/-- Claim C9 (amended): in fallback mode a response carries a language-tagged
marker prefix only when the mock recognizes a print-like pattern (or, for
python, "error"/"raise") in the code; for python code containing "print" the
stdout is marked with the prefix "Python output: ", while code with no
recognizable pattern yields an empty, unmarked response. -/
theorem fallback_marker_for_print_code (code stdin : String) (t ms : Int)
    (h : goContains code "print" = true) :
    ∃ rest : String,
      (mockExecute
          { Language := "python", Code := code, Stdin := stdin, Timeout := t }
          ms).1.Stdout
        = "Python output: " ++ rest
      ∧ (mockExecute
          { Language := "python", Code := code, Stdin := stdin, Timeout := t }
          ms).2 = none := by
  by_cases hc : (goContains code "input" && stdin != "") = true
  · refine ⟨extractPrintContent code "python" ++ ("\nInput was: " ++ stdin), ?_, ?_⟩
    · simp only [mockExecute, h, if_true, hc, String.append_assoc]
    · simp only [mockExecute, h, if_true, hc]
  · refine ⟨extractPrintContent code "python", ?_, ?_⟩
    · simp only [mockExecute, h, if_true, hc, Bool.false_eq_true, if_false]
    · simp only [mockExecute, h, if_true, hc, Bool.false_eq_true, if_false]

/-- Claim C9 witness: the amended statement at the concrete print
submission `print(42)`. -/
theorem fallback_marker_for_print_code_w :
    ∃ rest : String,
      (mockExecute
          { Language := "python", Code := "print(42)", Stdin := "", Timeout := 0 }
          0).1.Stdout
        = "Python output: " ++ rest
      ∧ (mockExecute
          { Language := "python", Code := "print(42)", Stdin := "", Timeout := 0 }
          0).2 = none :=
  fallback_marker_for_print_code "print(42)" "" 0 0 (by decide)

/-! ## Claim C10 -/

/-- Claim C10: when Docker-client creation or the daemon ping fails, the
constructor returns a fallback-mode executor with a `nil` error, and
`Execute` then delegates every request to the mock executor as its very first
step: no deadline is composed (`deadline = none`, so the timeout is never
clamped) and no event is traced (`trace = []`, so the concurrency semaphore is
never consulted and no sandbox resources or limits apply), whatever the
request and the in-flight count. -/
theorem fallback_constructor_and_delegation (config : ExecutorConfig)
    (clientErr pingErr : Bool) (semCount : Nat) (req : ExecutionRequest)
    (beh : DockerBehavior) (h : clientErr = true ∨ pingErr = true) :
    (newExecutorWithConfig config clientErr pingErr).2 = none
    ∧ (newExecutorWithConfig config clientErr pingErr).1.fallbackMode = true
    ∧ Execute (newExecutorWithConfig config clientErr pingErr).1 semCount req beh
      = { result := (mockExecute req beh.elapsedMs).1,
          err := Option.map ExecErr.generic (mockExecute req beh.elapsedMs).2,
          trace := [], deadline := none } := by
  rcases h with h | h
  · cases clientErr
    · exact absurd h Bool.false_ne_true
    · refine ⟨rfl, rfl, ?_⟩
      simp only [newExecutorWithConfig, if_true, Execute]
  · cases clientErr <;> cases pingErr
    · exact absurd h Bool.false_ne_true
    · refine ⟨rfl, rfl, ?_⟩
      simp only [newExecutorWithConfig, Bool.false_eq_true, if_false, if_true, Execute]
    · exact absurd h Bool.false_ne_true
    · refine ⟨rfl, rfl, ?_⟩
      simp only [newExecutorWithConfig, if_true, Execute]

/-- Claim C10 witness: a failed daemon ping, with an over-capacity in-flight
count and an already-expired context — the mock is still consulted directly. -/
theorem fallback_constructor_and_delegation_w :
    (newExecutorWithConfig { ImagePrefix := "", ConcurrentLimit := 0, DefaultTimeout := 0 }
        false true).2 = none
    ∧ (newExecutorWithConfig { ImagePrefix := "", ConcurrentLimit := 0, DefaultTimeout := 0 }
        false true).1.fallbackMode = true
    ∧ Execute (newExecutorWithConfig { ImagePrefix := "", ConcurrentLimit := 0, DefaultTimeout := 0 }
          false true).1 50 pyReq { okBeh with ctxDone := true }
      = { result := (mockExecute pyReq ({ okBeh with ctxDone := true }).elapsedMs).1,
          err := Option.map ExecErr.generic
            (mockExecute pyReq ({ okBeh with ctxDone := true }).elapsedMs).2,
          trace := [], deadline := none } :=
  fallback_constructor_and_delegation
    { ImagePrefix := "", ConcurrentLimit := 0, DefaultTimeout := 0 }
    false true 50 pyReq { okBeh with ctxDone := true } (Or.inr rfl)
